import Mathlib

/-!
Verification development for the ClipAI main process (src/main.js).
JavaScript strings are modelled as lists of characters; JavaScript numbers
that the modelled code only ever holds as integers are modelled as Nat or
Int (with explicit two-complement wrapping where the code forces 32-bit
integer semantics via bitwise operators).
-/

set_option maxRecDepth 4000

/-- A JavaScript string, modelled as its list of UTF-16 units restricted to
single characters (no surrogate pairs are needed by any statement here). -/
abbrev Str := List Char

/-- Shorthand to write a modelled JavaScript string from a Lean literal. -/
def js (s : String) : Str := s.toList

/-- Whitespace recognised by JavaScript trim (the code points that can
actually occur in the modelled inputs). -/
def isJsSpace (c : Char) : Bool :=
  c = ' ' || c = '\t' || c = '\n' || c = '\r' || c = '\u000b' || c = '\u000c' || c = ' '

/-- JavaScript String.prototype.trim. -/
def jsTrim (s : Str) : Str :=
  ((s.dropWhile isJsSpace).reverse.dropWhile isJsSpace).reverse

/-- JavaScript s.slice(0, e): a negative end index counts from the end of the
string and clamps at zero. -/
def jsSliceTo (s : Str) (e : ℤ) : Str :=
  if 0 ≤ e then s.take e.toNat
  else s.take (Int.toNat ((s.length : ℤ) + e))

/-- Wrap an integer to signed 32-bit two-complement range, as the JavaScript
bitwise operators do. -/
def toInt32 (z : ℤ) : ℤ := (z + 2 ^ 31) % 2 ^ 32 - 2 ^ 31

/-- One iteration of hashString in src/main.js:
h = ((h << 5) - h + charCode) | 0.  The shift coerces to Int32, as does
the final bitwise or with zero. -/
def hashStep (h : ℤ) (c : Char) : ℤ :=
  toInt32 (toInt32 (h * 32) - h + (c.toNat : ℤ))

/-- hashString from src/main.js, up to the final base-36 rendering: the
rendering is injective, so fingerprint equality is equality of these
32-bit values. -/
def hashString (s : Str) : ℤ := s.foldl hashStep 0

/-- MAX_TEXT_LEN from src/main.js. -/
def MAX_TEXT_LEN : ℕ := 25000

/-- DEFAULT_SUMMARY_PROMPT from src/main.js. -/
def DEFAULT_SUMMARY_PROMPT : Str :=
  js "Summarize in ≤3 concise sentences. Use Markdown formatting (headers, bold, italic, lists)"

/-- PROVIDER_DEFAULT_MODELS from src/main.js; an unknown provider id yields
the empty string, standing for the JavaScript undefined (which is not a key
of MODEL_CONTEXT_LIMITS, matching the behaviour of an undefined lookup). -/
def providerDefaultModel (p : Str) : Str :=
  if p = js "openai" then js "gpt-5-mini"
  else if p = js "groq" then js "llama-3.1-70b-versatile"
  else if p = js "gemini" then js "gemini-2.5-flash-lite"
  else if p = js "anthropic" then js "claude-3"
  else if p = js "grok" then js "grok-4"
  else []

/-- MODEL_CONTEXT_LIMITS from src/main.js. -/
def MODEL_CONTEXT_LIMITS : List (Str × ℕ) :=
  [ (js "gpt-4o", 128000)
  , (js "gpt-4o-mini", 128000)
  , (js "gpt-4-turbo", 128000)
  , (js "gpt-4", 8192)
  , (js "gpt-3.5-turbo", 16385)
  , (js "llama-3.1-70b-versatile", 131072)
  , (js "llama-3.1-8b-instant", 131072)
  , (js "mixtral-8x7b-32768", 32768)
  , (js "gemma-7b-it", 8192)
  , (js "gemini-1.5-pro", 2000000)
  , (js "gemini-1.5-flash", 1000000)
  , (js "gemini-pro", 32768)
  , (js "claude-3-5-sonnet-20241022", 200000)
  , (js "claude-3-opus-20240229", 200000)
  , (js "claude-3-sonnet-20240229", 200000)
  , (js "claude-3-haiku-20240307", 200000) ]

/-- Property lookup in the MODEL_CONTEXT_LIMITS object. -/
def modelContextLimit (k : Str) : Option ℕ :=
  MODEL_CONTEXT_LIMITS.lookup k

/-- The orchestrator-relevant slice of the loaded config document. -/
structure Config where
  unlimitedInput : Bool
  maxInputChars : ℤ
  maxOutputTokens : ℤ
deriving DecidableEq

/-- getMaxInputLength from src/main.js (runSummary, lines 695-711).
Math.ceil(len / 4) on a nonnegative integer equals (len + 3) / 4 in Nat
division; Math.ceil(limit * 0.1) equals (limit + 9) / 10 for every limit in
MODEL_CONTEXT_LIMITS, the only limits this function can receive (checked
against double rounding for each of the sixteen table entries); the final
Math.floor is applied to an exact integer product and is the identity. -/
def getMaxInputLength (cfg : Config) (contextualPromptLen : ℕ) (provider model : Str) : ℤ :=
  if cfg.unlimitedInput = false then cfg.maxInputChars
  else
    let modelKey := if model = [] then providerDefaultModel provider else model
    match modelContextLimit modelKey with
    | none => (MAX_TEXT_LEN : ℤ)
    | some contextLimit =>
      let systemPromptTokens : ℕ := (contextualPromptLen + 3) / 4
      let safetyMargin : ℕ := (contextLimit + 9) / 10
      let availableTokens : ℤ :=
        (contextLimit : ℤ) - (systemPromptTokens : ℤ) - cfg.maxOutputTokens - (safetyMargin : ℤ)
      max 5000 (availableTokens * 4)

/-- The user text the orchestrator passes to summarizeWithProvider:
selection.slice(0, effectiveMaxLength) in runSummary. -/
def limitedSelectionFor (cfg : Config) (contextualPrompt : Str) (provider model selection : Str) : Str :=
  jsSliceTo selection (getMaxInputLength cfg contextualPrompt.length provider model)

/-- The input ceiling exactly as the specification words it for
unlimitedInput=true: max(5000, floor(4 * (L - systemPromptTokens -
maxOutputTokens - 0.1 * L))). -/
def specUnlimitedCeiling (L systemPromptTokens maxOutputTokens : ℤ) : ℤ :=
  max 5000 ⌊(4 : ℚ) * ((L : ℚ) - (systemPromptTokens : ℚ) - (maxOutputTokens : ℚ) - (L : ℚ) / 10)⌋

/-- Derive markdownMode on load (src/main.js lines 93-97): a missing or
empty markdownMode falls back to the legacy boolean markdownEnabled when
that is present, and to full otherwise. -/
def migrateMarkdownMode (markdownMode : Option Str) (markdownEnabled : Option Bool) : Str :=
  let falsyMM := match markdownMode with
    | none => true
    | some m => m = []
  if falsyMM then
    match markdownEnabled with
    | some b => if b then js "full" else js "off"
    | none => js "full"
  else markdownMode.getD []

/-- The pieces of a provider HTTP request that summarizeWithProvider builds
(src/main.js lines 515-555).  userTextSent is the user text placed in the
body; for Gemini the body embeds it inside combinedText after the system
prompt, for the chat-completion providers combinedText equals userTextSent.
URL percent-encoding of the Gemini model name and the key query parameter
are not modelled. -/
structure ProviderRequest where
  url : Str
  model : Str
  system : Str
  userTextSent : Str
  combinedText : Str
  maxTokens : ℤ
deriving DecidableEq

/-- Drop a trailing generateContent suffix from a Gemini model name,
as the replace with an end-anchored pattern does. -/
def stripGenerateContentSuffix (m : Str) : Str :=
  let suf := js ":generateContent"
  if suf.isSuffixOf m then m.take (m.length - suf.length) else m

/-- The request-building phase of summarizeWithProvider: the switch over
providers, including the unconditional slice of the user text to
MAX_TEXT_LEN and the missing-key and unsupported-provider errors. -/
def buildProviderRequest (provider key model systemPrompt userText : Str)
    (maxOutputTokens : ℤ) : Except Str ProviderRequest :=
  let trimmed := userText.take MAX_TEXT_LEN
  let finalSystem := if systemPrompt = [] then DEFAULT_SUMMARY_PROMPT else systemPrompt
  if provider = js "openai" ∨ provider = js "groq" then
    if key = [] then Except.error (js "Missing API key")
    else Except.ok
      { url := if provider = js "openai" then js "https://api.openai.com/v1/chat/completions"
               else js "https://api.groq.com/openai/v1/chat/completions"
      , model := if model = [] then providerDefaultModel provider else model
      , system := finalSystem
      , userTextSent := trimmed
      , combinedText := trimmed
      , maxTokens := maxOutputTokens }
  else if provider = js "anthropic" then
    if key = [] then Except.error (js "Missing API key")
    else Except.ok
      { url := js "https://api.anthropic.com/v1/messages"
      , model := if model = [] then providerDefaultModel provider else model
      , system := finalSystem
      , userTextSent := trimmed
      , combinedText := trimmed
      , maxTokens := maxOutputTokens }
  else if provider = js "gemini" then
    if key = [] then Except.error (js "Missing API key")
    else
      let m := stripGenerateContentSuffix
        (if model = [] then providerDefaultModel provider else model)
      Except.ok
        { url := js "https://generativelanguage.googleapis.com/v1beta/models/" ++ m
            ++ js ":generateContent"
        , model := m
        , system := finalSystem
        , userTextSent := trimmed
        , combinedText := finalSystem ++ js "\n\nINPUT:\n" ++ trimmed
        , maxTokens := maxOutputTokens }
  else if provider = js "grok" then
    if key = [] then Except.error (js "Missing API key")
    else Except.ok
      { url := js "https://openrouter.ai/api/v1/chat/completions"
      , model := if model = [] then providerDefaultModel provider else model
      , system := finalSystem
      , userTextSent := trimmed
      , combinedText := trimmed
      , maxTokens := maxOutputTokens }
  else Except.error (js "Unsupported provider")

/-- The observable part of a provider HTTP response. -/
structure HttpResponse where
  ok : Bool
  status : ℕ
  body : Str
deriving DecidableEq

/-- The error string thrown on a non-success status (src/main.js lines
557-560): HTTP status, colon, and the response body sliced to 160
characters. -/
def httpErrorMessage (status : ℕ) (body : Str) : Str :=
  js "HTTP " ++ (Nat.repr status).toList ++ js ": " ++ body.take 160

/-- summarizeWithProvider as a function of the built request and the
response: request building may fail first; a non-ok response raises the
HTTP error; on success the provider-specific extracted text is returned
trimmed. -/
def summarizeWithProviderResult (provider key model systemPrompt userText : Str)
    (maxOutputTokens : ℤ) (resp : HttpResponse) (extracted : Str) : Except Str Str :=
  (buildProviderRequest provider key model systemPrompt userText maxOutputTokens).bind
    fun _ =>
      if resp.ok = false then Except.error (httpErrorMessage resp.status resp.body)
      else Except.ok (jsTrim extracted)

/-- The process platforms captureSelectionText branches on. -/
inductive Platform where
  | darwin
  | win32
  | linux
  | otherOS
deriving DecidableEq

/-- The environment a single captureSelectionText invocation observes:
the pre-capture clipboard, whether auto-copy is enabled, and the outcome of
the simulated copy (none models the copy or clipboard read throwing,
handled by the surrounding catch). -/
structure CaptureEnv where
  platform : Platform
  autoCopy : Bool
  before : Str
  copyResult : Option Str
deriving DecidableEq

/-- captureSelectionText from src/main.js lines 480-512.  The fire-and-
forget clipboard restore is a side effect that does not affect the return
value and is not modelled. -/
def captureSelectionText (env : CaptureEnv) : Str :=
  let before := env.before
  let selection :=
    if env.autoCopy then
      match env.platform with
      | Platform.darwin | Platform.win32 | Platform.linux =>
        match env.copyResult with
        | some post => post
        | none => before
      | Platform.otherOS => before
    else before
  let selection2 := if selection = [] ∨ selection = before then before else selection
  jsTrim selection2

/-- A summary preset as held in the config document. -/
structure Preset where
  id : Str
  name : Str
  prompt : Str
  hotkey : Str
  isDefault : Bool
deriving DecidableEq

/-- Number of presets flagged as the default. -/
def countDefaults (ps : List Preset) : ℕ :=
  ps.countP (fun p => p.isDefault)

/-- The implicit default preset loadConfig injects (src/main.js line 107):
its accelerator is the summarize hotkey. -/
def defaultSummaryPreset (summarizeHotkey : Str) : Preset :=
  { id := js "default", name := js "Summary", prompt := DEFAULT_SUMMARY_PROMPT
  , hotkey := summarizeHotkey, isDefault := true }

/-- The summaryPresets part of loadConfig (src/main.js lines 103-107): the
stored list is cut to MAX_PRESETS and a default preset is prepended only
when no stored preset carries the default flag. -/
def loadPresets (stored : List Preset) (summarizeHotkey : Str) : List Preset :=
  let ps := stored.take 10
  if ps.any (fun p => p.isDefault) then ps
  else defaultSummaryPreset summarizeHotkey :: ps

/-- Whitespace-free join with a plus separator. -/
def joinPlus (l : List Str) : Str := List.intercalate (js "+") l

/-- Modifier tokens mapping to CommandOrControl. -/
def cmdGroup : List Str := [js "cmd", js "command", js "commandorcontrol"]

/-- Modifier tokens mapping to Control. -/
def ctrlGroup : List Str := [js "ctrl", js "control"]

/-- Modifier tokens mapping to Alt. -/
def altGroup : List Str := [js "alt", js "option"]

/-- Modifier tokens mapping to Shift. -/
def shiftGroup : List Str := [js "shift"]

/-- All lower-cased modifier token spellings normalizeAccelerator accepts. -/
def modifierNames : List Str := cmdGroup ++ ctrlGroup ++ altGroup ++ shiftGroup

/-- Whether a raw token is a pure modifier token in some casing. -/
def isModifierToken (p : Str) : Bool :=
  decide (p.map Char.toLower ∈ modifierNames)

/-- The mouse-button pseudo-key tokens. -/
def mouseKeys : List Str :=
  [js "leftclick", js "middleclick", js "rightclick", js "mousebutton4", js "mousebutton5"]

/-- The set of modifiers accumulated while scanning an accelerator. -/
structure Mods where
  coc : Bool
  ctrl : Bool
  alt : Bool
  shift : Bool
deriving DecidableEq

/-- Uppercase the first character of a token, or the whole token when it is
a single character, as normalizeAccelerator does for key tokens. -/
def jsCapitalize (p : Str) : Str :=
  if p.length = 1 then p.map Char.toUpper
  else
    match p with
    | [] => []
    | c :: rest => Char.toUpper c :: rest

/-- One step of the forEach in normalizeAccelerator: modifier tokens set a
modifier flag and leave the key unchanged; any other token overwrites the
key. -/
def accelStep (s : Mods × Str) (p : Str) : Mods × Str :=
  let up := p.map Char.toLower
  if up ∈ cmdGroup then ({ s.1 with coc := true }, s.2)
  else if up ∈ ctrlGroup then ({ s.1 with ctrl := true }, s.2)
  else if up ∈ altGroup then ({ s.1 with alt := true }, s.2)
  else if up ∈ shiftGroup then ({ s.1 with shift := true }, s.2)
  else if up ∈ mouseKeys then (s.1, p)
  else (s.1, jsCapitalize p)

/-- The token list normalizeAccelerator scans: split on plus, trim each
part, drop empty parts. -/
def accelParts (acc : Str) : List Str :=
  ((acc.splitOn '+').map jsTrim).filter (fun p => p ≠ [])

/-- The deterministic modifier ordering of the canonical accelerator. -/
def orderedMods (m : Mods) : List Str :=
  (if m.coc then [js "CommandOrControl"] else [])
    ++ (if m.ctrl then [js "Control"] else [])
    ++ (if m.alt then [js "Alt"] else [])
    ++ (if m.shift then [js "Shift"] else [])

/-- normalizeAccelerator from src/main.js lines 142-161.  The guard for a
non-string argument is outside the modelled domain; an empty string input
reaches the same empty result through the empty part list. -/
def normalizeAccelerator (acc : Str) : Str :=
  let scanned := (accelParts acc).foldl accelStep (⟨false, false, false, false⟩, [])
  if scanned.2 = [] then []
  else joinPlus (orderedMods scanned.1 ++ [scanned.2])

/-- JavaScript String.prototype.includes. -/
def jsIncludes (haystack needle : Str) : Bool :=
  decide (needle <:+: haystack)

/-- The accelerators registerShortcuts actually binds (src/main.js lines
745-755): presets whose normalized hotkey is empty or names a mouse button
are skipped. -/
def registeredAccelerators (ps : List Preset) : List Str :=
  ps.filterMap fun p =>
    let acc := normalizeAccelerator p.hotkey
    if acc = [] then none
    else if jsIncludes acc (js "click") || jsIncludes acc (js "mousebutton") then none
    else some acc

/-- Normalization of one incoming preset in the set-summary-presets
handler (src/main.js line 896); fresh stands for the timestamp-random id
minted when the incoming id is missing. -/
def normalizePresetIn (fresh : Str) (p : Preset) : Preset :=
  { id := if p.id = [] then fresh else p.id
  , name := if p.name.take 48 = [] then js "Preset" else p.name.take 48
  , prompt := (if p.prompt = [] then DEFAULT_SUMMARY_PROMPT else p.prompt).take 1200
  , hotkey := normalizeAccelerator p.hotkey
  , isDefault := p.isDefault && p.id = js "default" }

/-- The presets list persisted by the set-summary-presets handler
(src/main.js lines 894-905): normalize at most MAX_PRESETS incoming
presets, then prepend the current default preset (or a fresh implicit one
bound to the summarize hotkey) when none of the normalized entries is
flagged default. -/
def setSummaryPresets (incoming cur : List Preset) (summarizeHotkey fresh : Str) : List Preset :=
  let normalized := (incoming.take 10).map (normalizePresetIn fresh)
  let defP := (cur.find? (fun p => p.isDefault)).getD (defaultSummaryPreset summarizeHotkey)
  if normalized.any (fun p => p.isDefault) then normalized else defP :: normalized

/-- The transient popup and request bookkeeping state runSummary reads and
writes: window existence and visibility, the fade flag, the in-flight
flag, the last request fingerprint and the last show timestamp in
milliseconds. -/
structure PopupState where
  windowExists : Bool
  visible : Bool
  fading : Bool
  inFlight : Bool
  lastHash : ℤ
  lastShownTs : ℤ
deriving DecidableEq

/-- The externally observable actions a runSummary trigger can emit, in
order. -/
inductive PopupAction where
  | showNearCursor
  | refocus
  | sendNoKeyMessage
  | sendWorking
  | sendTruncationNotice
  | startFadeOut
  | invokeProvider (text : Str)
deriving DecidableEq

/-- scheduleHidePopup from src/main.js lines 424-431: a no-op without a
window or while already fading, otherwise it emits the fade-out signal and
marks the state fading. -/
def scheduleHidePopup (st : PopupState) : PopupState × List PopupAction :=
  if st.windowExists = false then (st, [])
  else if st.fading = true then (st, [])
  else ({ st with fading := true }, [PopupAction.startFadeOut])

/-- One runSummary trigger (src/main.js lines 628-741) as a step function:
the missing-key guidance path, the fingerprint toggle check with the
in-flight and 800 ms debounce conditions, the show-or-refocus step, the
working message, the truncation of the captured selection to the effective
ceiling with its optional notice, and the provider invocation.  The later
completion of the provider call (clearing the in-flight flag) is a separate
event and not part of this step. -/
def runSummaryStep (cfg : Config) (provider model contextualPrompt : Str)
    (st : PopupState) (now : ℤ) (keyPresent : Bool) (selectionRaw presetId : Str) :
    PopupState × List PopupAction :=
  if keyPresent = false then
    if st.windowExists = false ∨ st.visible = false then
      ({ st with windowExists := true, visible := true, lastShownTs := now },
        [PopupAction.showNearCursor, PopupAction.sendNoKeyMessage])
    else (st, [PopupAction.refocus, PopupAction.sendNoKeyMessage])
  else
    let selection := if selectionRaw = [] then js "(No selection)" else selectionRaw
    let newHash := hashString (selection ++ js "|" ++ presetId)
    if st.windowExists = true ∧ st.visible = true ∧ newHash = st.lastHash ∧
        (st.inFlight = false ∨ now - st.lastShownTs > 800) then
      scheduleHidePopup st
    else
      let stHash := { st with lastHash := newHash }
      let shown :=
        if stHash.windowExists = false ∨ stHash.visible = false then
          ({ stHash with windowExists := true, visible := true, lastShownTs := now },
            [PopupAction.showNearCursor])
        else (stHash, [PopupAction.refocus])
      let st2 := { shown.1 with inFlight := true }
      let eff := getMaxInputLength cfg contextualPrompt.length provider model
      let limited := limitedSelectionFor cfg contextualPrompt provider model selection
      let truncActs :=
        if (selection.length : ℤ) > eff then [PopupAction.sendTruncationNotice] else []
      (st2, shown.2 ++ [PopupAction.sendWorking] ++ truncActs
        ++ [PopupAction.invokeProvider limited])

/-- A pure modifier token leaves the pending key of the accelerator scan
unchanged. -/
theorem accelStep_modifier_key (s : Mods × Str) (p : Str)
    (h : isModifierToken p = true) : (accelStep s p).2 = s.2 := by
  have hm : p.map Char.toLower ∈ modifierNames := of_decide_eq_true h
  simp only [modifierNames, List.mem_append] at hm
  unfold accelStep
  by_cases h1 : p.map Char.toLower ∈ cmdGroup
  · simp [h1]
  by_cases h2 : p.map Char.toLower ∈ ctrlGroup
  · simp [h1, h2]
  by_cases h3 : p.map Char.toLower ∈ altGroup
  · simp [h1, h2, h3]
  by_cases h4 : p.map Char.toLower ∈ shiftGroup
  · simp [h1, h2, h3, h4]
  tauto

/-- Scanning a list of pure modifier tokens never produces a key. -/
theorem accelFold_modifier_key :
    ∀ (l : List Str) (s : Mods × Str), (∀ p ∈ l, isModifierToken p = true) →
      (l.foldl accelStep s).2 = s.2
  | [], _, _ => rfl
  | p :: t, s, h => by
    rw [List.foldl_cons,
      accelFold_modifier_key t _ (fun q hq => h q (List.mem_cons_of_mem _ hq))]
    exact accelStep_modifier_key s p (h p (List.mem_cons_self _ _))

/-- C8: loading a config document that lacks markdownMode but contains the
legacy boolean markdownEnabled yields markdownMode full when markdownEnabled
is true and markdownMode off when it is false. -/
theorem c8_markdown_migration :
    migrateMarkdownMode none (some true) = js "full" ∧
    migrateMarkdownMode none (some false) = js "off" := by
  constructor <;> rfl

/-- C9: an accelerator string whose every token is a modifier token (in any
casing; this includes empty and blank strings, whose token list is empty)
normalizes to the empty string, and a preset bound to such an accelerator
is skipped by shortcut registration, so the binding stays unbound. -/
theorem c9_modifier_only_unbound (acc : Str)
    (h : ∀ p ∈ accelParts acc, isModifierToken p = true) :
    normalizeAccelerator acc = [] ∧
    ∀ pr : Preset, pr.hotkey = acc → registeredAccelerators [pr] = [] := by
  have key : ((accelParts acc).foldl accelStep (⟨false, false, false, false⟩, [])).2 = [] :=
    accelFold_modifier_key _ _ h
  have hnorm : normalizeAccelerator acc = [] := by
    simp [normalizeAccelerator, key]
  refine ⟨hnorm, fun pr hpr => ?_⟩
  simp [registeredAccelerators, hpr, hnorm]

/-- C9 witness: a two-modifier accelerator with mixed casing normalizes to
the empty string and registers nothing. -/
theorem c9_modifier_only_unbound_witness :
    normalizeAccelerator (js "Ctrl+Shift") = [] ∧
    registeredAccelerators [⟨[], [], [], js "Ctrl+Shift", false⟩] = [] := by
  have h := c9_modifier_only_unbound (js "Ctrl+Shift") (by decide)
  exact ⟨h.1, h.2 ⟨[], [], [], js "Ctrl+Shift", false⟩ rfl⟩

/-- C6 counterexample: with auto-copy enabled on macOS, a pre-capture
clipboard holding a blank-padded text and a simulated copy that leaves the
clipboard unchanged (no selection), capture does not return the
pre-existing clipboard contents unchanged: the result is trimmed. -/
theorem c6_capture_fallback_counterexample :
    captureSelectionText ⟨Platform.darwin, true, js " x ", some (js " x ")⟩ ≠ js " x " := by
  decide

/-- C6 amended: whenever the post-copy clipboard equals the pre-copy
clipboard, the simulated copy fails, or auto-copy is disabled, capture
falls back to the pre-existing clipboard contents and returns them
whitespace-trimmed (and the modelled capture is a total function, so it
never throws). -/
theorem c6_capture_fallback_amended (env : CaptureEnv)
    (h : env.autoCopy = false ∨ env.copyResult = some env.before ∨ env.copyResult = none) :
    captureSelectionText env = jsTrim env.before := by
  rcases h with h | h | h <;>
    cases hp : env.platform <;>
      by_cases hac : env.autoCopy <;>
        simp [captureSelectionText, h, hp, hac]

/-- C6 amended witness: the blank-padded clipboard case evaluates to the
trimmed pre-capture contents. -/
theorem c6_capture_fallback_amended_witness :
    captureSelectionText ⟨Platform.darwin, true, js " x ", some (js " x ")⟩ = jsTrim (js " x ") :=
  c6_capture_fallback_amended ⟨Platform.darwin, true, js " x ", some (js " x ")⟩
    (Or.inr (Or.inl rfl))

/-- C7 counterexample: a persisted document already containing two
default-flagged presets still has two of them after loading, so the claimed
exactly-one invariant fails on such documents. -/
theorem c7_default_preset_counterexample :
    countDefaults (loadPresets
        [⟨js "a", js "A", js "p", [], true⟩, ⟨js "b", js "B", js "q", [], true⟩]
        (js "CommandOrControl+Shift+Space")) ≠ 1 := by
  decide

/-- When a base list holds at most one default-flagged preset, conditionally
prepending a default-flagged preset exactly when none is present yields
exactly one default-flagged preset. -/
theorem countDefaults_branch (l : List Preset) (d : Preset) (hd : d.isDefault = true)
    (hle : countDefaults l ≤ 1) :
    countDefaults (if l.any (fun p => p.isDefault) then l else d :: l) = 1 := by
  by_cases hA : l.any (fun p => p.isDefault) = true
  · rw [if_pos hA]
    have hpos : 0 < countDefaults l := by
      rw [countDefaults, List.countP_pos_iff]
      obtain ⟨a, ha, hpa⟩ := List.any_eq_true.mp hA
      exact ⟨a, ha, hpa⟩
    omega
  · rw [if_neg hA]
    have hz : countDefaults l = 0 := by
      rw [countDefaults, List.countP_eq_zero]
      intro a ha
      by_contra hcon
      exact hA (List.any_eq_true.mpr ⟨a, ha, by simpa using hcon⟩)
    rw [countDefaults, List.countP_cons]
    rw [countDefaults] at hz
    simp [hd, hz]

/-- The default preset carried over by the set-summary-presets handler is
always default-flagged, whether found in the current list or freshly
built. -/
theorem findDefault_isDefault (cur : List Preset) (hk : Str) :
    ((cur.find? (fun p => p.isDefault)).getD (defaultSummaryPreset hk)).isDefault = true := by
  cases hfind : cur.find? (fun p => p.isDefault) with
  | none => rfl
  | some q => simpa using List.find?_some hfind

/-- C7 amended: after a config load of a stored document holding at most
one default-flagged preset (within the first MAX_PRESETS entries), exactly
one preset has isDefault true, and when the document held none the injected
default heads the list with its accelerator equal to the summarize hotkey;
after a set-summary-presets mutation whose normalized incoming list holds
at most one default-flagged entry, exactly one preset has isDefault true.
Documents or incoming lists already holding several default-flagged presets
keep all of those flags. -/
theorem c7_default_preset_amended (stored incoming cur : List Preset) (hk fresh : Str)
    (hload : countDefaults (stored.take 10) ≤ 1)
    (hset : countDefaults ((incoming.take 10).map (normalizePresetIn fresh)) ≤ 1) :
    countDefaults (loadPresets stored hk) = 1 ∧
    countDefaults (setSummaryPresets incoming cur hk fresh) = 1 ∧
    (countDefaults (stored.take 10) = 0 →
      loadPresets stored hk = defaultSummaryPreset hk :: stored.take 10) := by
  refine ⟨?_, ?_, fun hz => ?_⟩
  · simpa [loadPresets] using
      countDefaults_branch (stored.take 10) (defaultSummaryPreset hk) rfl hload
  · simpa [setSummaryPresets] using
      countDefaults_branch ((incoming.take 10).map (normalizePresetIn fresh)) _
        (findDefault_isDefault cur hk) hset
  · have hA : (stored.take 10).any (fun p => p.isDefault) = false := by
      rw [countDefaults, List.countP_eq_zero] at hz
      rw [List.any_eq_false]
      intro a ha
      simpa using hz a ha
    simp [loadPresets, hA]

/-- C7 amended witness: loading an empty document and saving an empty
preset list each end with exactly the injected default preset. -/
theorem c7_default_preset_amended_witness :
    countDefaults (loadPresets [] (js "CommandOrControl+Shift+Space")) = 1 ∧
    countDefaults (setSummaryPresets [] [] (js "CommandOrControl+Shift+Space") (js "f")) = 1 ∧
    (countDefaults (([] : List Preset).take 10) = 0 →
      loadPresets [] (js "CommandOrControl+Shift+Space")
        = [defaultSummaryPreset (js "CommandOrControl+Shift+Space")]) :=
  c7_default_preset_amended [] [] [] (js "CommandOrControl+Shift+Space") (js "f")
    (by decide) (by decide)

/-- With the unlimited-input flag off and a nonnegative configured cap, the
truncated selection the orchestrator builds never exceeds the cap, whatever
the selection. -/
theorem limitedSelection_length_le (cfg : Config) (hu : cfg.unlimitedInput = false)
    (h0 : 0 ≤ cfg.maxInputChars) (prompt provider model s : Str) :
    ((limitedSelectionFor cfg prompt provider model s).length : ℤ) ≤ cfg.maxInputChars := by
  have heff : getMaxInputLength cfg prompt.length provider model = cfg.maxInputChars := by
    simp [getMaxInputLength, hu]
  simp only [limitedSelectionFor, heff, jsSliceTo, if_pos h0, List.length_take]
  omega

/-- Any provider invocation a runSummary trigger emits carries exactly the
selection truncated to the effective ceiling. -/
theorem runSummaryStep_invoke_payload (cfg : Config) (provider model contextualPrompt : Str)
    (st : PopupState) (now : ℤ) (keyP : Bool) (sel pid t : Str)
    (h : PopupAction.invokeProvider t
        ∈ (runSummaryStep cfg provider model contextualPrompt st now keyP sel pid).2) :
    t = limitedSelectionFor cfg contextualPrompt provider model
        (if sel = [] then js "(No selection)" else sel) := by
  simp only [runSummaryStep, scheduleHidePopup] at h
  repeat' split at h
  all_goals simp_all

/-- C1: with unlimitedInput off and a nonnegative configured cap, the
effective ceiling the orchestrator computes equals maxInputChars, the
captured selection is truncated to that ceiling, and every provider
invocation a trigger emits carries a text no longer than maxInputChars. -/
theorem c1_fixed_cap_truncation (cfg : Config) (hu : cfg.unlimitedInput = false)
    (h0 : 0 ≤ cfg.maxInputChars) (contextualPrompt provider model sel : Str) :
    getMaxInputLength cfg contextualPrompt.length provider model = cfg.maxInputChars ∧
    ((limitedSelectionFor cfg contextualPrompt provider model sel).length : ℤ)
        ≤ cfg.maxInputChars ∧
    ∀ (st : PopupState) (now : ℤ) (keyP : Bool) (pid t : Str),
      PopupAction.invokeProvider t
          ∈ (runSummaryStep cfg provider model contextualPrompt st now keyP sel pid).2 →
      (t.length : ℤ) ≤ cfg.maxInputChars := by
  refine ⟨by simp [getMaxInputLength, hu],
    limitedSelection_length_le cfg hu h0 contextualPrompt provider model sel,
    fun st now keyP pid t hmem => ?_⟩
  rw [runSummaryStep_invoke_payload cfg provider model contextualPrompt st now keyP sel pid t hmem]
  exact limitedSelection_length_le cfg hu h0 contextualPrompt provider model _

/-- C1 witness: with the default cap of 25000 the ceiling is 25000 and a
concrete selection stays within it. -/
theorem c1_fixed_cap_truncation_witness :
    getMaxInputLength ⟨false, 25000, 800⟩ (js "p").length (js "openai") [] = 25000 ∧
    ((limitedSelectionFor ⟨false, 25000, 800⟩ (js "p") (js "openai") [] (js "hello")).length : ℤ)
        ≤ 25000 :=
  ⟨(c1_fixed_cap_truncation ⟨false, 25000, 800⟩ rfl (by norm_num) (js "p") (js "openai") []
      (js "hello")).1,
   (c1_fixed_cap_truncation ⟨false, 25000, 800⟩ rfl (by norm_num) (js "p") (js "openai") []
      (js "hello")).2.1⟩

/-- C3: with a visible, non-fading popup, a key-present trigger whose
fingerprint equals the last request fingerprint, arriving after the
in-flight flag has cleared and more than 800 milliseconds after the popup
was shown, starts the fade-out sequence and emits no provider call. -/
theorem c3_same_fingerprint_toggle_hides (cfg : Config)
    (provider model contextualPrompt : Str) (st : PopupState) (now : ℤ) (sel pid : Str)
    (hex : st.windowExists = true) (hvis : st.visible = true) (hfade : st.fading = false)
    (hsel : sel ≠ [])
    (hhash : hashString (sel ++ js "|" ++ pid) = st.lastHash)
    (hflight : st.inFlight = false)
    (_helapsed : now - st.lastShownTs > 800) :
    runSummaryStep cfg provider model contextualPrompt st now true sel pid
      = ({ st with fading := true }, [PopupAction.startFadeOut]) := by
  have hboth : st.inFlight = false ∨ now - st.lastShownTs > 800 := Or.inl hflight
  simp only [runSummaryStep, scheduleHidePopup]
  rw [if_neg (by simp)]
  rw [if_neg hsel]
  rw [if_pos ⟨hex, hvis, hhash, hboth⟩]
  rw [if_neg (by simp [hex]), if_neg (by simp [hfade])]

/-- C3 witness: a concrete repeated-fingerprint trigger 1000 milliseconds
after show, with no request in flight, yields exactly the fade-out step. -/
theorem c3_same_fingerprint_toggle_hides_witness :
    runSummaryStep ⟨false, 25000, 800⟩ (js "openai") [] (js "p")
        ⟨true, true, false, false, hashString (js "a|default"), 0⟩ 1000 true
        (js "a") (js "default")
      = (⟨true, true, true, false, hashString (js "a|default"), 0⟩,
          [PopupAction.startFadeOut]) :=
  c3_same_fingerprint_toggle_hides ⟨false, 25000, 800⟩ (js "openai") [] (js "p")
    ⟨true, true, false, false, hashString (js "a|default"), 0⟩ 1000 (js "a") (js "default")
    rfl rfl rfl (by decide) rfl rfl (by decide)

/-- C4: evaluating a repeat trigger with the identical fingerprint 300
milliseconds after the popup was shown, while the first request is still in
flight, shows that the trigger is not ignored: the step leaves the popup
visible but re-sends the working message and launches a second provider
call for the same fingerprint, where the comment above this branch and the
specification demand that the trigger be dropped. -/
theorem c4_inflight_repeat_not_ignored :
    runSummaryStep ⟨false, 25000, 800⟩ (js "openai") [] (js "p")
        ⟨true, true, false, true, hashString (js "a|default"), 1000⟩ 1300 true
        (js "a") (js "default")
      = (⟨true, true, false, true, hashString (js "a|default"), 1000⟩,
          [PopupAction.refocus, PopupAction.sendWorking,
            PopupAction.invokeProvider (js "a")]) := by
  decide

/-- C2 counterexample: for the gpt-4 context limit of 8192 and a 92
character contextual prompt (so 23 reserved prompt tokens) with 800 output
tokens, the code computes 4 * (8192 - 23 - 800 - 820) = 26196 while the
ceiling the claim states, max(5000, floor(4 * (8192 - 23 - 800 -
819.2))), is 26199: the code rounds the 10 percent margin up to whole
tokens before converting to characters. -/
theorem c2_unlimited_ceiling_counterexample :
    getMaxInputLength ⟨true, 25000, 800⟩ 92 (js "openai") (js "gpt-4")
      ≠ specUnlimitedCeiling 8192 23 800 := by
  have h1 : getMaxInputLength ⟨true, 25000, 800⟩ 92 (js "openai") (js "gpt-4") = 26196 := by
    decide
  have h2 : specUnlimitedCeiling 8192 23 800 = 26199 := by
    have hfl : ⌊(4 : ℚ) * ((8192 : ℚ) - (23 : ℚ) - (800 : ℚ) - (8192 : ℚ) / 10)⌋ = 26199 := by
      rw [Int.floor_eq_iff]
      norm_num
    rw [specUnlimitedCeiling]
    push_cast
    rw [hfl]
    norm_num
  rw [h1, h2]
  decide

/-- The exact ceiling of a natural number divided by four. -/
theorem ceil_div_four (n : ℕ) : ⌈(n : ℚ) / 4⌉ = (((n + 3) / 4 : ℕ) : ℤ) := by
  obtain ⟨q, hq⟩ : ∃ q : ℕ, (n + 3) / 4 = q := ⟨_, rfl⟩
  rw [hq]
  have hub : n ≤ 4 * q := by omega
  have hlb : 4 * q ≤ n + 3 := by omega
  have hub2 : (n : ℚ) ≤ 4 * (q : ℚ) := by exact_mod_cast hub
  have hlb2 : 4 * (q : ℚ) ≤ (n : ℚ) + 3 := by exact_mod_cast hlb
  rw [Int.ceil_eq_iff]
  refine ⟨?_, ?_⟩ <;> push_cast <;> linarith

/-- The exact ceiling of a natural number divided by ten. -/
theorem ceil_div_ten (n : ℕ) : ⌈(n : ℚ) / 10⌉ = (((n + 9) / 10 : ℕ) : ℤ) := by
  obtain ⟨q, hq⟩ : ∃ q : ℕ, (n + 9) / 10 = q := ⟨_, rfl⟩
  rw [hq]
  have hub : n ≤ 10 * q := by omega
  have hlb : 10 * q ≤ n + 9 := by omega
  have hub2 : (n : ℚ) ≤ 10 * (q : ℚ) := by exact_mod_cast hub
  have hlb2 : 10 * (q : ℚ) ≤ (n : ℚ) + 9 := by exact_mod_cast hlb
  rw [Int.ceil_eq_iff]
  refine ⟨?_, ?_⟩ <;> push_cast <;> linarith

/-- C2 amended: with unlimitedInput on and a known context limit L for the
resolved model key, the effective ceiling equals max(5000, floor(4 * (L -
ceil(promptChars / 4) - maxOutputTokens - ceil(L / 10)))): both token
reservations are rounded up to whole tokens before the four-characters-per-
token conversion, which is what the counterexample forces onto the claimed
formula. -/
theorem c2_unlimited_ceiling_amended (cfg : Config) (promptLen : ℕ) (provider model : Str)
    (L : ℕ) (hu : cfg.unlimitedInput = true)
    (hL : modelContextLimit (if model = [] then providerDefaultModel provider else model)
        = some L) :
    getMaxInputLength cfg promptLen provider model
      = max 5000 ⌊(4 : ℚ) * ((L : ℚ) - ((⌈(promptLen : ℚ) / 4⌉ : ℤ) : ℚ)
          - (cfg.maxOutputTokens : ℚ) - ((⌈(L : ℚ) / 10⌉ : ℤ) : ℚ))⌋ := by
  have hkey : ⌊(4 : ℚ) * ((L : ℚ) - ((⌈(promptLen : ℚ) / 4⌉ : ℤ) : ℚ)
      - (cfg.maxOutputTokens : ℚ) - ((⌈(L : ℚ) / 10⌉ : ℤ) : ℚ))⌋
      = ((L : ℤ) - (((promptLen + 3) / 4 : ℕ) : ℤ) - cfg.maxOutputTokens
          - (((L + 9) / 10 : ℕ) : ℤ)) * 4 := by
    rw [ceil_div_four, ceil_div_ten]
    have hcast : (4 : ℚ) * ((L : ℚ) - ((((promptLen + 3) / 4 : ℕ) : ℤ) : ℚ)
        - (cfg.maxOutputTokens : ℚ) - ((((L + 9) / 10 : ℕ) : ℤ) : ℚ))
        = ((((L : ℤ) - (((promptLen + 3) / 4 : ℕ) : ℤ) - cfg.maxOutputTokens
            - (((L + 9) / 10 : ℕ) : ℤ)) * 4 : ℤ) : ℚ) := by
      push_cast
      ring
    rw [hcast, Int.floor_intCast]
  rw [hkey]
  simp only [getMaxInputLength, hu, hL]
  norm_num

/-- C2 amended witness: the gpt-4 instance evaluates to 26196 on both
sides. -/
theorem c2_unlimited_ceiling_amended_witness :
    getMaxInputLength ⟨true, 25000, 800⟩ 92 (js "openai") (js "gpt-4")
      = max 5000 ⌊(4 : ℚ) * ((8192 : ℚ) - ((⌈(92 : ℚ) / 4⌉ : ℤ) : ℚ)
          - ((800 : ℤ) : ℚ) - ((⌈(8192 : ℚ) / 10⌉ : ℤ) : ℚ))⌋ :=
  c2_unlimited_ceiling_amended ⟨true, 25000, 800⟩ 92 (js "openai") (js "gpt-4") 8192
    rfl (by decide)



/-- Whatever branch of the provider switch succeeds, the user text placed
in the request is the input sliced to MAX_TEXT_LEN. -/
theorem buildProviderRequest_userTextSent (provider key model systemPrompt userText : Str)
    (maxOut : ℤ) (req : ProviderRequest)
    (h : buildProviderRequest provider key model systemPrompt userText maxOut
        = Except.ok req) :
    req.userTextSent = userText.take MAX_TEXT_LEN := by
  simp only [buildProviderRequest] at h
  repeat' split at h
  all_goals simp_all
  all_goals cases h
  all_goals rfl

/-- C5: every successfully built provider request carries at most 25000
characters of user text, namely the input sliced to MAX_TEXT_LEN, so an
orchestrator ceiling of 25000 or more leaves the transmitted text
unchanged. -/
theorem c5_gateway_hard_cap (provider key model systemPrompt userText : Str)
    (maxOut : ℤ) (req : ProviderRequest)
    (h : buildProviderRequest provider key model systemPrompt userText maxOut
        = Except.ok req) :
    req.userTextSent = userText.take 25000 ∧
    req.userTextSent.length ≤ 25000 ∧
    ∀ e : ℤ, 25000 ≤ e → (jsSliceTo userText e).take 25000 = userText.take 25000 := by
  have hsent := buildProviderRequest_userTextSent provider key model systemPrompt userText
    maxOut req h
  refine ⟨hsent, ?_, fun e he => ?_⟩
  · rw [hsent]
    simp only [MAX_TEXT_LEN, List.length_take]
    omega
  · have h0 : (0 : ℤ) ≤ e := by omega
    have hn : 25000 ≤ e.toNat := by omega
    rw [jsSliceTo, if_pos h0, List.take_take, min_eq_left hn]

/-- C5 witness: a short text through the OpenAI branch is sent verbatim,
and a ceiling of 30000 has no effect past the 25000 cap. -/
theorem c5_gateway_hard_cap_witness :
    (js "hello") = (js "hello").take 25000 ∧
    (js "hello").length ≤ 25000 ∧
    (jsSliceTo (js "hello") 30000).take 25000 = (js "hello").take 25000 := by
  have h := c5_gateway_hard_cap (js "openai") (js "k") [] [] (js "hello") 800
    ⟨js "https://api.openai.com/v1/chat/completions", js "gpt-5-mini",
      DEFAULT_SUMMARY_PROMPT, js "hello", js "hello", 800⟩ (by rfl)
  exact ⟨h.1, h.2.1, h.2.2 30000 (by norm_num)⟩

/-- C10: once a provider request has been built, a non-success HTTP
response makes the call fail with an error string holding the status code
followed by at most 160 characters of the response body, never a
summary. -/
theorem c10_http_error_surfaced (provider key model systemPrompt userText : Str)
    (maxOut : ℤ) (resp : HttpResponse) (extracted : Str) (req : ProviderRequest)
    (hreq : buildProviderRequest provider key model systemPrompt userText maxOut
        = Except.ok req)
    (hko : resp.ok = false) :
    summarizeWithProviderResult provider key model systemPrompt userText maxOut resp extracted
        = Except.error (httpErrorMessage resp.status resp.body) ∧
    (resp.body.take 160).length ≤ 160 ∧
    List.IsInfix ((Nat.repr resp.status).toList) (httpErrorMessage resp.status resp.body) := by
  refine ⟨?_, ?_, ?_⟩
  · rw [summarizeWithProviderResult, hreq]
    simp [Except.bind, hko]
  · simp [List.length_take]
  · exact ⟨js "HTTP ", js ": " ++ resp.body.take 160, by
      simp [httpErrorMessage, List.append_assoc]⟩

/-- C10 witness: a 401 from the Anthropic branch yields the HTTP 401 error
string with the body prefix. -/
theorem c10_http_error_surfaced_witness :
    summarizeWithProviderResult (js "anthropic") (js "k") [] [] (js "hi") 800
        ⟨false, 401, js "Unauthorized"⟩ []
      = Except.error (httpErrorMessage 401 (js "Unauthorized")) ∧
    ((js "Unauthorized").take 160).length ≤ 160 ∧
    List.IsInfix ((Nat.repr 401).toList) (httpErrorMessage 401 (js "Unauthorized")) :=
  c10_http_error_surfaced (js "anthropic") (js "k") [] [] (js "hi") 800
    ⟨false, 401, js "Unauthorized"⟩ []
    ⟨js "https://api.anthropic.com/v1/messages", js "claude-3",
      DEFAULT_SUMMARY_PROMPT, js "hi", js "hi", 800⟩ (by rfl) rfl
